import Mathlib

/-!
Verification of the queue-classification, dependency-staging, artifact-store
and build-runner logic of the msys2 autobuild script (src/autobuild.py),
as a shallow embedding in Lean 4.

Conventions:
* Python strings are Lean `String`s; Python lists are Lean `List`s.
* `fnmatch.fnmatch(name, pat)` is modelled by `fnmatch name pat` below,
  supporting the glob wildcards `*` and `?` (the only ones the script uses).
* Fallible Python code is modelled with `Except` / `Option`.
* External effects (subprocess results, network downloads) are supplied by
  explicit oracle parameters; filesystem and store state is passed explicitly.
-/

/-! ## Glob matching (model of fnmatch.fnmatch / fnmatch.filter) -/

/-- All suffixes of a list, longest first (the list itself down to `[]`). -/
def tailsList : List Char → List (List Char)
  | [] => [[]]
  | c :: cs => (c :: cs) :: tailsList cs

/-- Core glob matcher over character lists.  `*` matches any (possibly empty)
sequence, `?` matches exactly one character, anything else matches itself.
The script only ever uses `*` and literal characters in its patterns. -/
def globMatch : List Char → List Char → Bool
  | [], s => s.isEmpty
  | '*' :: ps, s => (tailsList s).any (fun t => globMatch ps t)
  | '?' :: ps, s =>
    match s with
    | [] => false
    | _ :: cs => globMatch ps cs
  | p :: ps, s =>
    match s with
    | [] => false
    | c :: cs => p == c && globMatch ps cs

/-- Model of `fnmatch.fnmatch(name, pattern)`. -/
def fnmatch (name pattern : String) : Bool :=
  globMatch pattern.toList name.toList

/-- `True` when `sub` occurs as a contiguous substring of `s`
(model of the Python `sub in s` test on strings). -/
def containsSubstr (s sub : String) : Bool :=
  (tailsList s.toList).any (fun t => sub.toList.isPrefixOf t)

/-! ## Data model: build-queue entries (src/autobuild.py get_buildqueue) -/

/-- One build-queue entry as returned by the queue API and enriched by
`get_buildqueue`: `packages` is the produced-artifact name set
(`pkg["packages"]`), `depends` the declared dependency names, `repo` the
last component of `repo_url` (for example "MSYS2-packages"). -/
structure Pkg where
  name : String
  version : String
  packages : List String
  depends : List String
  repo : String
deriving DecidableEq, Repr

/-- `dep_mapping` of `get_buildqueue`: maps an artifact name to the queue
entry producing it.  The Python dict is filled in queue order with later
entries overwriting earlier ones, hence the last producer wins. -/
def depMapping (pkgs : List Pkg) (name : String) : Option Pkg :=
  (pkgs.filter (fun p => p.packages.contains name)).getLast?

/-- `pkg["ext-depends"]` of `get_buildqueue`: each declared dependency name
paired with the queue entry that produces it, in declaration order.
(In the source an unresolved name raises `KeyError`; the spec declares the
queue internally consistent, so the model simply has no pair for it.) -/
def extDeps (queue : List Pkg) (pkg : Pkg) : List (String × Pkg) :=
  pkg.depends.filterMap (fun n => (depMapping queue n).map (fun p => (n, p)))

/-! ## Queue classification (src/autobuild.py get_packages_to_build) -/

/-- The static exclusion list `SKIP`. -/
def SKIP : List String := ["mingw-w64-clang"]

/-- `pkg_is_done`: every produced name has at least one published artifact
matching `"<name>-<version>-*.pkg.tar.*"` in the combined msys+mingw
staging listings. -/
def pkg_is_done (assets : List String) (pkg : Pkg) : Bool :=
  pkg.packages.all (fun item =>
    assets.any (fun a => fnmatch a (item ++ "-" ++ pkg.version ++ "-*.pkg.tar.*")))

/-- `pkg_has_failed`: some produced name has a failure marker
`"<name>-<version>.failed"` in the staging-failed listing. -/
def pkg_has_failed (assetsFailed : List String) (pkg : Pkg) : Bool :=
  pkg.packages.any (fun item =>
    assetsFailed.contains (item ++ "-" ++ pkg.version ++ ".failed"))

/-- `pkg_is_skipped`: the entry name is in the static exclusion list. -/
def pkg_is_skipped (pkg : Pkg) : Bool :=
  SKIP.contains pkg.name

/-- The dependency scan of the classification loop: the first resolved
dependency (in `ext-depends` order) that is itself failed or excluded. -/
def firstBlockedDep (queue : List Pkg) (assetsFailed : List String) (pkg : Pkg) : Option Pkg :=
  ((extDeps queue pkg).map Prod.snd).find?
    (fun dep => pkg_has_failed assetsFailed dep || pkg_is_skipped dep)

/-- Classification outcome for one queue entry. -/
inductive Classification where
  | done : Classification
  | skipped (reason : String) : Classification
  | todo : Classification
deriving DecidableEq, Repr

/-- The per-entry body of the classification loop in `get_packages_to_build`:
done-check, then failure marker, then static exclusion, then the scan over
resolved dependencies (first offender wins), else TODO. -/
def classify (queue : List Pkg) (assets assetsFailed : List String) (pkg : Pkg) :
    Classification :=
  if pkg_is_done assets pkg then .done
  else if pkg_has_failed assetsFailed pkg then .skipped "failed"
  else if pkg_is_skipped pkg then .skipped "skipped"
  else
    match firstBlockedDep queue assetsFailed pkg with
    | some dep => .skipped ("requires: " ++ dep.name)
    | none => .todo

/-- The classification loop proper, returning `(done, skipped, todo)` in
queue order; `full` is the whole queue (used for dependency resolution). -/
def classifyQueue (full : List Pkg) (assets assetsFailed : List String) :
    List Pkg → List Pkg × List (Pkg × String) × List Pkg
  | [] => ([], [], [])
  | pkg :: rest =>
    let r := classifyQueue full assets assetsFailed rest
    match classify full assets assetsFailed pkg with
    | .done => (pkg :: r.1, r.2.1, r.2.2)
    | .skipped reason => (r.1, (pkg, reason) :: r.2.1, r.2.2)
    | .todo => (r.1, r.2.1, pkg :: r.2.2)

/-- `get_packages_to_build`, given the queue snapshot and the published
artifact / failure-marker name listings. -/
def get_packages_to_build (queue : List Pkg) (assets assetsFailed : List String) :
    List Pkg × List (Pkg × String) × List Pkg :=
  classifyQueue queue assets assetsFailed queue

example : fnmatch "a-1-2-any.pkg.tar.zst" "a-1-*.pkg.tar.*" = true := by decide
example : fnmatch "a-1-2.src.tar.gz" "a-1-*" = true := by decide
example : fnmatch "a-1-2.src.tar.gz" "a-1-*.pkg.tar.*" = false := by decide

/-! ## Artifact store (src/autobuild.py get_release_assets / upload_asset) -/

/-- The uploader identity attached to a release asset
(PyGithub `asset.uploader`). -/
structure Uploader where
  utype : String
  login : String
deriving DecidableEq, Repr

/-- One release asset of the store, as far as the script inspects it. -/
structure Asset where
  name : String
  uploader : Uploader
deriving DecidableEq, Repr

/-- The trusted automated identity: type "Bot", login "github-actions[bot]". -/
def trustedUploader (u : Uploader) : Bool :=
  u.utype == "Bot" && u.login == "github-actions[bot]"

/-- `get_release_assets(repo, release_name)`, applied to the asset list of the
named release: walks the assets in order and raises `SystemExit` (modelled as
`Except.error`) at the first asset whose uploader is not the trusted bot
identity; otherwise returns all assets. -/
def get_release_assets (assets : List Asset) : Except String (List Asset) :=
  match assets with
  | [] => .ok []
  | a :: rest =>
    if a.uploader.utype != "Bot" || a.uploader.login != "github-actions[bot]" then
      .error ("ERROR: Asset " ++ a.name ++ " not uploaded by GHA but "
        ++ a.uploader.login ++ ". Aborting.")
    else
      (get_release_assets rest).map (fun l => a :: l)

/-- The remote store: pairs of (release name, asset), for example
("staging-msys", asset). -/
abbrev ReleaseStore : Type := List (String × Asset)

/-- The assets of one named release of the store, in store order. -/
def releaseAssets (store : ReleaseStore) (releaseName : String) : List Asset :=
  (store.filter (fun e => e.1 == releaseName)).map (fun e => e.2)

/-- The error message of the attribute error raised by `upload_asset` when run
with the trusted identity: line 107 of the source binds the plain list
returned by `get_release_assets` to `release`, and lines 109/112 then call
`release.get_assets()` / `release.upload_asset(...)` on that list. -/
def uploadAttrError : String :=
  "AttributeError: list object has no attribute get_assets"

/-- `upload_asset(type_, path, replace)` given the current authenticated
identity and the store.  Returns the (possibly updated) store and a flag
recording whether the not-running-in-CI warning was printed.  If the
identity is not the trusted bot, it warns and returns with the store
untouched (lines 102-104).  Otherwise it lists the release
`"staging-" + type_` (which can raise the trust `SystemExit`) and then
unconditionally hits the attribute error described at `uploadAttrError`,
so the trusted branch never modifies the store either. -/
def upload_asset (currentUser : Uploader) (store : ReleaseStore)
    (type_ : String) (pathName : String) (replace : Bool) :
    Except String (ReleaseStore × Bool) :=
  if currentUser.login != "github-actions[bot]" || currentUser.utype != "Bot" then
    .ok (store, true)
  else
    match get_release_assets (releaseAssets store ("staging-" ++ type_)) with
    | .error e => .error e
    | .ok _ =>
      -- `replace`, `pathName`: both branches of the Python code dereference a
      -- missing attribute of the list before any store mutation.
      let _ := replace
      let _ := pathName
      .error uploadAttrError

/-! ## Dependency staging (src/autobuild.py staging_dependencies) -/

/-- The exception taxonomy of the script, plus `pyError` for exceptions that
are not `BuildError` subclasses (`SystemExit`, `AttributeError`,
`CalledProcessError` escaping a cleanup step, ...). -/
inductive BuildExc where
  | missingDependency (pattern : String) : BuildExc
  | buildTimeout : BuildExc
  | buildError : BuildExc
  | pyError (msg : String) : BuildExc
deriving DecidableEq, Repr

/-- The mutable system state the stager touches: the pacman configuration
file contents and whether the staging root `<builddir>/_REPO` exists. -/
structure SysState where
  pacmanConf : String
  repoRootExists : Bool
deriving DecidableEq, Repr

/-- Monotone history of the observable staging side effects: repository
subdirectory creation, artifact download, configuration stanza write, and
the repo-add index build. -/
inductive StagingEvent where
  | madeRepoDir (subdir : String) : StagingEvent
  | downloaded (assetName : String) : StagingEvent
  | wroteStanza (repoName : String) : StagingEvent
  | ranRepoAdd (repoName : String) : StagingEvent
deriving DecidableEq, Repr

/-- Environment oracle for the staging context manager: whether each
download / repo-add / pacman invocation succeeds, and the outcome of the
caller's build action run inside the context (`body`). -/
structure StagingOracle where
  downloadOk : String → Bool
  repoAddOk : String → Bool
  suyOk : Bool
  suuyOk : Bool
  body : Except BuildExc Unit

/-- The channel a dependency is staged from: "msys" when the producing
entry's repo starts with "MSYS2", else "mingw" (line 175). -/
def repoTypeOf (dep : Pkg) : String :=
  if dep.repo.startsWith "MSYS2" then "msys" else "mingw"

/-- The staging search pattern for a dependency:
`"<name>-<version>-*.pkg.*"` (line 174). -/
def depPattern (name : String) (dep : Pkg) : String :=
  name ++ "-" ++ dep.version ++ "-*.pkg.*"

/-- The asset the matching loop would pick for one dependency: the first
asset of the dependency's staging channel whose name matches the pattern. -/
def findDepAsset (store : ReleaseStore) (name : String) (dep : Pkg) : Option String :=
  ((releaseAssets store ("staging-" ++ repoTypeOf dep)).find?
    (fun a => fnmatch a.name (depPattern name dep))).map Asset.name

/-- The matching loop over `pkg["ext-depends"]` (lines 172-181): for each
dependency, list the channel (trust check included), scan for the first
matching asset, and raise `MissingDependencyError` when none matches.
All matching completes before anything is downloaded. -/
def matchDeps (store : ReleaseStore) :
    List (String × Pkg) → Except BuildExc (List (String × String))
  | [] => .ok []
  | (name, dep) :: rest =>
    let rt := repoTypeOf dep
    match get_release_assets (releaseAssets store ("staging-" ++ rt)) with
    | .error e => .error (.pyError e)
    | .ok assets =>
      match assets.find? (fun a => fnmatch a.name (depPattern name dep)) with
      | some a => (matchDeps store rest).map (fun l => (rt, a.name) :: l)
      | none => .error (.missingDependency (depPattern name dep))

/-- `get_repo_subdir(type_, asset)` as the subdirectory string it returns,
or the "unknown file type" exception. -/
def get_repo_subdir (type_ : String) (assetName : String) : Except String String :=
  if type_ == "msys" then
    if fnmatch assetName "*.pkg.tar.*" then .ok "msys/x86_64"
    else if fnmatch assetName "*.src.tar.*" then .ok "msys/sources"
    else .error "Exception: unknown file type"
  else if type_ == "mingw" then
    if fnmatch assetName "*.src.tar.*" then .ok "mingw/sources"
    else if assetName.startsWith "mingw-w64-x86_64-" then .ok "mingw/x86_64"
    else if assetName.startsWith "mingw-w64-i686-" then .ok "mingw/i686"
    else .error "Exception: unknown file type"
  else
    -- the source function falls off the end for any other type
    .error "TypeError: NoneType is not iterable"

/-- The configuration stanza `add_to_repo` writes in front of the existing
text (lines 158-162). -/
def confStanza (repoName uri : String) : String :=
  "[" ++ repoName ++ "]\n" ++ "Server=" ++ uri ++ "\n" ++ "SigLevel=Never\n"

/-- `add_to_repo(repo_root, repo_type, asset)` (lines 139-165) as a step on
the system state: compute the subdirectory (can raise), create it, download
the asset (oracle), prepend the stanza to the configuration when its URI is
not yet present, and run repo-add (oracle).  Note line 155 calls
`text.replace(...)` and discards the result, so that substitution has no
effect and is not modelled. -/
def add_to_repo (o : StagingOracle) (repoRootPath : String) (s : SysState)
    (rt assetName : String) : SysState × List StagingEvent × Except BuildExc Unit :=
  match get_repo_subdir rt assetName with
  | .error msg => (s, [], .error (.pyError msg))
  | .ok subdir =>
    if o.downloadOk assetName = false then
      (s, [.madeRepoDir subdir], .error (.pyError ("download failed: " ++ assetName)))
    else
      let repoName := "autobuild-" ++ (subdir.replace "/" "-")
      let uri := "file://" ++ repoRootPath ++ "/" ++ subdir
      let s2 :=
        if containsSubstr s.pacmanConf uri then s
        else { s with pacmanConf := confStanza repoName uri ++ s.pacmanConf }
      let evConf : List StagingEvent :=
        if containsSubstr s.pacmanConf uri then [] else [.wroteStanza repoName]
      if o.repoAddOk assetName then
        (s2, [.madeRepoDir subdir, .downloaded assetName] ++ evConf
          ++ [.ranRepoAdd repoName], .ok ())
      else
        (s2, [.madeRepoDir subdir, .downloaded assetName] ++ evConf,
          .error (.pyError ("repo-add failed: " ++ assetName)))

/-- The download loop over `to_add` (lines 183-184), stopping at the first
raising step. -/
def add_all (o : StagingOracle) (repoRootPath : String) :
    SysState → List (String × String) → SysState × List StagingEvent × Except BuildExc Unit
  | s, [] => (s, [], .ok ())
  | s, (rt, a) :: rest =>
    let r := add_to_repo o repoRootPath s rt a
    match r.2.2 with
    | .error e => (r.1, r.2.1, .error e)
    | .ok _ =>
      let r2 := add_all o repoRootPath r.1 rest
      (r2.1, r.2.1 ++ r2.2.1, r2.2.2)

/-- The body of the `with backup_pacman_conf(...)` block (lines 172-188):
match all dependencies, download and register each, force the upgrade sync
(`pacman -Suy`, oracle), then run the caller's build action. -/
def staging_inner (o : StagingOracle) (store : ReleaseStore) (repoRootPath : String)
    (deps : List (String × Pkg)) (s : SysState) :
    SysState × List StagingEvent × Except BuildExc Unit :=
  match matchDeps store deps with
  | .error e => (s, [], .error e)
  | .ok toAdd =>
    let r := add_all o repoRootPath s toAdd
    match r.2.2 with
    | .error e => (r.1, r.2.1, .error e)
    | .ok _ =>
      if o.suyOk then (r.1, r.2.1, o.body)
      else (r.1, r.2.1, .error (.pyError "pacman -Suy failed"))

/-- `staging_dependencies(pkg, msys2_root, builddir)` (lines 134-192) around
a build action: remove and recreate the staging root, back up the
configuration file (`backup_pacman_conf`, lines 123-131), run the inner
staging steps and the body, then on every exit path restore the
configuration from the backup, remove the staging root, and run the
downgrade sync (`pacman -Suuy`, whose own failure replaces the in-flight
exception, as a Python `finally` does). -/
def staging_dependencies (o : StagingOracle) (store : ReleaseStore)
    (repoRootPath : String) (deps : List (String × Pkg)) (init : SysState) :
    SysState × List StagingEvent × Except BuildExc Unit :=
  let s1 : SysState := { init with repoRootExists := false }
  let s2 : SysState := { s1 with repoRootExists := true }
  let backup := s2.pacmanConf
  let r := staging_inner o store repoRootPath deps s2
  let s4 : SysState := { r.1 with pacmanConf := backup }
  let s5 : SysState := { s4 with repoRootExists := false }
  let res := if o.suuyOk then r.2.2 else .error (.pyError "pacman -Suuy failed")
  (s5, r.2.1, res)

/-! ## Build runner (src/autobuild.py build_package / run_build) -/

/-- Outcome of one `run_cmd(... makepkg ...)` invocation inside
`build_package` (lines 210-230): success, `subprocess.TimeoutExpired`
because the remaining global budget elapsed, or
`subprocess.CalledProcessError`. -/
inductive PhaseOutcome where
  | ok : PhaseOutcome
  | timeout : PhaseOutcome
  | calledProcessError : PhaseOutcome
deriving DecidableEq, Repr

/-- The `except subprocess.CalledProcessError` handler of `build_package`
(lines 233-243): for every produced name, write the marker file
`"<name>-<version>.failed"` (content "oh no", since the store rejects empty
assets) and call `upload_asset("failed", ...)`.  Returns the upload calls
made (channel, asset name) and either success of every call or the message
of the first call that raised. -/
def upload_failed_markers (user : Uploader) (store : ReleaseStore)
    (version : String) : List String → List (String × String) × Except String Unit
  | [] => ([], .ok ())
  | item :: rest =>
    let markerName := item ++ "-" ++ version ++ ".failed"
    match upload_asset user store "failed" markerName true with
    | .error e => ([("failed", markerName)], .error e)
    | .ok _ =>
      let r := upload_failed_markers user store version rest
      (("failed", markerName) :: r.1, r.2)

/-- The success branch of `build_package` (lines 244-249): upload every
entry of the package directory matching `*.pkg.tar.*` or `*.src.tar.*` to
the "msys" or "mingw" channel. -/
def upload_outputs (user : Uploader) (store : ReleaseStore) (isMsys : Bool) :
    List String → List (String × String) × Except String Unit
  | [] => ([], .ok ())
  | entry :: rest =>
    if fnmatch entry "*.pkg.tar.*" || fnmatch entry "*.src.tar.*" then
      let ch := if isMsys then "msys" else "mingw"
      match upload_asset user store ch entry true with
      | .error e => ([(ch, entry)], .error e)
      | .ok _ =>
        let r := upload_outputs user store isMsys rest
        ((ch, entry) :: r.1, r.2)
    else upload_outputs user store isMsys rest

/-- Shared failure handler of both build phases: run the marker uploads,
then re-raise as `BuildError` on success of the uploads, or propagate the
upload exception (which in this code is never a `BuildError`). -/
def handle_build_failure (user : Uploader) (store : ReleaseStore) (pkg : Pkg) :
    List (String × String) × Option BuildExc :=
  let r := upload_failed_markers user store pkg.version pkg.packages
  match r.2 with
  | .ok _ => (r.1, some .buildError)
  | .error m => (r.1, some (.pyError m))

/-- `build_package(pkg, msys2_root, builddir)` (lines 195-249), with the
staging context outcome supplied as `stagingResult` (`none` = staging
succeeded; the staging steps themselves are modelled by
`staging_dependencies` above) and the two makepkg invocations by `p1`,
`p2`.  Returns the upload calls made for this package and the exception
leaving `build_package`, if any: `TimeoutExpired` in either phase becomes
`BuildTimeoutError`, `CalledProcessError` publishes failure markers and
becomes `BuildError`, success publishes the matching `outputs`. -/
def build_package (user : Uploader) (store : ReleaseStore)
    (stagingResult : Option BuildExc) (p1 p2 : PhaseOutcome)
    (outputs : List String) (pkg : Pkg) :
    List (String × String) × Option BuildExc :=
  match stagingResult with
  | some e => ([], some e)
  | none =>
    match p1 with
    | .timeout => ([], some .buildTimeout)
    | .calledProcessError => handle_build_failure user store pkg
    | .ok =>
      match p2 with
      | .timeout => ([], some .buildTimeout)
      | .calledProcessError => handle_build_failure user store pkg
      | .ok =>
        let r := upload_outputs user store (pkg.repo.startsWith "MSYS2") outputs
        match r.2 with
        | .ok _ => (r.1, none)
        | .error m => (r.1, some (.pyError m))

/-- Per-package environment for a run: staging outcome, the two phase
outcomes, and the build output directory listing. -/
structure BuildOracle where
  stagingResult : Option BuildExc
  p1 : PhaseOutcome
  p2 : PhaseOutcome
  outputs : List String

/-- How a run over the TODO list ended. -/
inductive RunEnd where
  | finished : RunEnd
  | timedOut : RunEnd
  | crashed (msg : String) : RunEnd
deriving DecidableEq, Repr

/-- The loop of `run_build` over the TODO list (lines 270-284): build each
package, `continue` on `MissingDependencyError` and on `BuildError`,
`break` on `BuildTimeoutError`, and abort (uncaught exception) on anything
else.  Returns the processed packages with their upload calls, and how the
run ended. -/
def run_build (user : Uploader) (store : ReleaseStore) (o : Pkg → BuildOracle) :
    List Pkg → List (Pkg × List (String × String)) × RunEnd
  | [] => ([], .finished)
  | pkg :: rest =>
    let b := build_package user store (o pkg).stagingResult (o pkg).p1 (o pkg).p2
      (o pkg).outputs pkg
    match b.2 with
    | some (.missingDependency _) =>
      let r := run_build user store o rest
      ((pkg, b.1) :: r.1, r.2)
    | some .buildTimeout => ([(pkg, b.1)], .timedOut)
    | some .buildError =>
      let r := run_build user store o rest
      ((pkg, b.1) :: r.1, r.2)
    | some (.pyError m) => ([(pkg, b.1)], .crashed m)
    | none =>
      let r := run_build user store o rest
      ((pkg, b.1) :: r.1, r.2)

/-! ## Spec-side definition for claim C2 -/

/-- Done-ness as the words of claim C2 state it, with the version-qualified
pattern `"<name>-<version>-*"` (no `.pkg.tar.` suffix); to be compared with
`pkg_is_done`, which the source implements. -/
def spec_pkg_is_done (assets : List String) (pkg : Pkg) : Bool :=
  pkg.packages.all (fun item =>
    assets.any (fun a => fnmatch a (item ++ "-" ++ pkg.version ++ "-*")))

/-! ## Concrete fixtures -/

/-- Chain bottom: produces "c", no dependencies. -/
def pkgCc : Pkg := { name := "c", version := "1", packages := ["c"], depends := [], repo := "MINGW-packages" }

/-- Chain middle: produces "b", depends on "c". -/
def pkgBb : Pkg := { name := "b", version := "1", packages := ["b"], depends := ["c"], repo := "MINGW-packages" }

/-- Chain top: produces "a", depends on "b". -/
def pkgAa : Pkg := { name := "a", version := "1", packages := ["a"], depends := ["b"], repo := "MINGW-packages" }

/-- The three-entry dependency chain A -> B -> C. -/
def chainQueue : List Pkg := [pkgAa, pkgBb, pkgCc]

/-- Failure-marker listing with C failed. -/
def chainFailed : List String := ["c-1.failed"]

/-- Entry producing "a" used for the C2 counterexample. -/
def exePkg : Pkg := { name := "e", version := "1", packages := ["a"], depends := [], repo := "MSYS2-packages" }

/-- A published source archive for "a" version "1": it matches the pattern
"a-1-*" of the claim but not the "a-1-*.pkg.tar.*" pattern of the code. -/
def exeAssets : List String := ["a-1-2.src.tar.gz"]

/-- Entry producing "d", fully published but also carrying a failure marker. -/
def pkgDd : Pkg := { name := "d", version := "1", packages := ["d"], depends := [], repo := "MSYS2-packages" }

/-- Entry producing "e", depending on "d", not published. -/
def pkgEe : Pkg := { name := "e", version := "1", packages := ["e"], depends := ["d"], repo := "MSYS2-packages" }

/-- Queue for the done-but-failed dependency scenario of claim C10. -/
def dqQueue : List Pkg := [pkgDd, pkgEe]

/-- Artifact listing covering all of d; failure listing with a d marker. -/
def dqAssets : List String := ["d-1-2-any.pkg.tar.zst"]

/-- Failure-marker listing for the C10 scenario. -/
def dqFailed : List String := ["d-1.failed"]

/-! ## Helper lemmas -/

/-- If some member of `l` satisfies `p`, then `l.find? p` returns an element
that does (the first one). -/
theorem find?_some_of_mem {α : Type} (p : α → Bool) {l : List α} {x : α}
    (hx : x ∈ l) (hp : p x = true) :
    ∃ y, l.find? p = some y ∧ p y = true := by
  induction l with
  | nil => cases hx
  | cons a t ih =>
    cases ha : p a with
    | true => exact ⟨a, by simp [List.find?, ha], ha⟩
    | false =>
      rcases List.mem_cons.mp hx with rfl | hxt
      · rw [ha] at hp; cases hp
      · rcases ih hxt with ⟨y, hy, hpy⟩
        exact ⟨y, by simp [List.find?, ha, hy], hpy⟩

/-- Classification yields DONE exactly when `pkg_is_done` holds: the done
check is the first branch of the loop body. -/
theorem classify_eq_done_iff (queue : List Pkg) (assets assetsFailed : List String)
    (pkg : Pkg) :
    classify queue assets assetsFailed pkg = .done ↔ pkg_is_done assets pkg = true := by
  unfold classify
  cases hd : pkg_is_done assets pkg with
  | true => simp
  | false =>
    simp only [Bool.false_eq_true, if_false, iff_false]
    split
    · simp
    · split
      · simp
      · split <;> simp

/-! ## Claim C2 -/

/-- Claim C2, as stated (counterexample): for the entry `exePkg` producing
"a" at version "1", the store holds the asset "a-1-2.src.tar.gz", which
matches the claim pattern "a-1-*", so the claim classifies the entry DONE;
the code requires "a-1-*.pkg.tar.*" and classifies it TODO. -/
theorem c2_counterexample :
    spec_pkg_is_done exeAssets exePkg = true ∧
    classify [exePkg] exeAssets [] exePkg = .todo ∧
    get_packages_to_build [exePkg] exeAssets [] = ([], [], [exePkg]) := by decide

/-- Claim C2 (amended: the matching pattern is
`"<name>-<version>-*.pkg.tar.*"`, not `"<name>-<version>-*"`): a queue
entry is classified DONE iff every name in its produced-artifact set has at
least one published artifact matching `"<name>-<version>-*.pkg.tar.*"` for
its exact version; partial coverage never counts as done. -/
theorem classify_done_iff_all_artifacts (queue : List Pkg)
    (assets assetsFailed : List String) (pkg : Pkg) :
    classify queue assets assetsFailed pkg = .done ↔
      ∀ item ∈ pkg.packages, ∃ a ∈ assets,
        fnmatch a (item ++ "-" ++ pkg.version ++ "-*.pkg.tar.*") = true := by
  rw [classify_eq_done_iff]
  simp [pkg_is_done, List.all_eq_true, List.any_eq_true]

/-! ## Claim C3 -/

/-- Claim C3: a queue entry that is not itself done, failed, or excluded,
and that has some resolved dependency which is failed or excluded, is
classified SKIPPED with reason "requires: " followed by the name of the
first such dependency in its dependency order — whatever the queue order,
since only the resolved-dependency list is consulted. -/
theorem dep_blocked_skips_dependent (queue : List Pkg)
    (assets assetsFailed : List String) (pkg dep : Pkg)
    (h1 : pkg_is_done assets pkg = false)
    (h2 : pkg_has_failed assetsFailed pkg = false)
    (h3 : pkg_is_skipped pkg = false)
    (hmem : dep ∈ (extDeps queue pkg).map Prod.snd)
    (hpred : (pkg_has_failed assetsFailed dep || pkg_is_skipped dep) = true) :
    ∃ d0, firstBlockedDep queue assetsFailed pkg = some d0 ∧
      (pkg_has_failed assetsFailed d0 || pkg_is_skipped d0) = true ∧
      classify queue assets assetsFailed pkg = .skipped ("requires: " ++ d0.name) := by
  rcases find?_some_of_mem
      (fun d => pkg_has_failed assetsFailed d || pkg_is_skipped d) hmem hpred with
    ⟨d0, hf, hp0⟩
  have hfb : firstBlockedDep queue assetsFailed pkg = some d0 := hf
  exact ⟨d0, hfb, hp0, by simp [classify, h1, h2, h3, hfb]⟩

/-- Witness for C3 at the concrete chain: B (not done, not failed, not
excluded) depends on failed C and is classified SKIPPED("requires: c"). -/
theorem dep_blocked_skips_dependent_witness :
    ∃ d0, firstBlockedDep chainQueue chainFailed pkgBb = some d0 ∧
      (pkg_has_failed chainFailed d0 || pkg_is_skipped d0) = true ∧
      classify chainQueue [] chainFailed pkgBb = .skipped ("requires: " ++ d0.name) :=
  dep_blocked_skips_dependent chainQueue [] chainFailed pkgBb pkgCc
    (by decide) (by decide) (by decide) (by decide) (by decide)

/-! ## Claim C1 -/

/-- Claim C1, as stated (counterexample): in the chain A -> B -> C with C
carrying a failure marker and none of the three done, classification marks
B SKIPPED("requires: c") but marks A TODO, not SKIPPED: the dependency scan
consults only the failure-marker and exclusion predicates of the direct
dependencies, and B is neither failed nor excluded. -/
theorem c1_counterexample :
    pkg_has_failed chainFailed pkgCc = true ∧
    extDeps chainQueue pkgAa = [("b", pkgBb)] ∧
    extDeps chainQueue pkgBb = [("c", pkgCc)] ∧
    pkg_is_done [] pkgAa = false ∧
    pkg_is_done [] pkgBb = false ∧
    pkg_is_done [] pkgCc = false ∧
    classify chainQueue [] chainFailed pkgBb = .skipped "requires: c" ∧
    classify chainQueue [] chainFailed pkgAa = .todo ∧
    get_packages_to_build chainQueue [] chainFailed =
      ([], [(pkgBb, "requires: c"), (pkgCc, "failed")], [pkgAa]) := by decide

/-- Claim C1 (amended: failure propagates exactly one dependency hop in a
classification pass): in a chain where A's only resolved dependency is B,
B's dependency scan finds C (failed or excluded), and neither A nor B is
done, failed, or excluded, classification marks B SKIPPED("requires:
<C.name>") while A stays TODO. -/
theorem chain_skips_middle_only (queue : List Pkg)
    (assets assetsFailed : List String) (A B C : Pkg)
    (hA1 : pkg_is_done assets A = false)
    (hA2 : pkg_has_failed assetsFailed A = false)
    (hA3 : pkg_is_skipped A = false)
    (hB1 : pkg_is_done assets B = false)
    (hB2 : pkg_has_failed assetsFailed B = false)
    (hB3 : pkg_is_skipped B = false)
    (hAdeps : (extDeps queue A).map Prod.snd = [B])
    (hBdep : firstBlockedDep queue assetsFailed B = some C) :
    classify queue assets assetsFailed B = .skipped ("requires: " ++ C.name) ∧
    classify queue assets assetsFailed A = .todo := by
  constructor
  · simp [classify, hB1, hB2, hB3, hBdep]
  · have hfb : firstBlockedDep queue assetsFailed A = none := by
      unfold firstBlockedDep
      rw [hAdeps]
      simp [List.find?, hB2, hB3]
    simp [classify, hA1, hA2, hA3, hfb]

/-- Witness for the amended C1 at the concrete chain. -/
theorem chain_skips_middle_only_witness :
    classify chainQueue [] chainFailed pkgBb = .skipped ("requires: " ++ pkgCc.name) ∧
    classify chainQueue [] chainFailed pkgAa = .todo :=
  chain_skips_middle_only chainQueue [] chainFailed pkgAa pkgBb pkgCc
    (by decide) (by decide) (by decide) (by decide) (by decide) (by decide)
    (by decide) (by decide)

/-! ## Claim C10 -/

/-- Claim C10: the dependency scan consults only the failure-marker and
exclusion predicates, never done-ness.  Concretely: D has all artifacts
published (D itself is classified DONE) but a failure marker "d-1.failed"
also exists; the not-done dependent E is classified
SKIPPED("requires: d"), not TODO. -/
theorem dep_done_but_failed_still_blocks :
    classify dqQueue dqAssets dqFailed pkgDd = .done ∧
    pkg_has_failed dqFailed pkgDd = true ∧
    classify dqQueue dqAssets dqFailed pkgEe = .skipped "requires: d" ∧
    get_packages_to_build dqQueue dqAssets dqFailed =
      ([pkgDd], [(pkgEe, "requires: d")], []) := by decide

/-! ## Store fixtures -/

/-- The trusted automated identity as a concrete uploader. -/
def botUploader : Uploader := { utype := "Bot", login := "github-actions[bot]" }

/-- An untrusted (human) uploader identity. -/
def humanUploader : Uploader := { utype := "User", login := "mallory" }

/-- An asset uploaded by the untrusted identity. -/
def badAsset : Asset := { name := "x-1-1-any.pkg.tar.zst", uploader := humanUploader }

/-! ## Claim C4 -/

/-- Listing a release whose assets all carry the trusted identity returns
exactly those assets. -/
theorem get_release_assets_ok_of_trusted (assets : List Asset)
    (h : ∀ a ∈ assets, trustedUploader a.uploader = true) :
    get_release_assets assets = .ok assets := by
  induction assets with
  | nil => rfl
  | cons a t ih =>
    have ha := h a (List.mem_cons_self a t)
    have h1 : (a.uploader.utype == "Bot") = true :=
      (Bool.and_eq_true _ _).mp ha |>.1
    have h2 : (a.uploader.login == "github-actions[bot]") = true :=
      (Bool.and_eq_true _ _).mp ha |>.2
    have ht : get_release_assets t = .ok t :=
      ih (fun x hx => h x (List.mem_cons_of_mem a hx))
    simp [get_release_assets, bne, h1, h2, ht, Except.map]

/-- Claim C4: if any asset of the listed release has an uploader that is
not the bot "github-actions[bot]", the listing aborts with a fatal error;
whenever it returns a list, that list is the full asset list (nothing was
silently dropped) and every asset in it carries the trusted identity. -/
theorem get_release_assets_trust (assets : List Asset) :
    ((∃ a ∈ assets, trustedUploader a.uploader = false) →
      ∃ msg, get_release_assets assets = .error msg) ∧
    (∀ l, get_release_assets assets = .ok l →
      l = assets ∧ ∀ a ∈ l, trustedUploader a.uploader = true) := by
  induction assets with
  | nil =>
    refine ⟨?_, ?_⟩
    · rintro ⟨a, ha, _⟩; cases ha
    · intro l hl
      cases hl
      exact ⟨rfl, by intro a ha; cases ha⟩
  | cons a t ih =>
    cases hc : (a.uploader.utype != "Bot" || a.uploader.login != "github-actions[bot]") with
    | true =>
      refine ⟨?_, ?_⟩
      · intro _
        refine ⟨"ERROR: Asset " ++ a.name ++ " not uploaded by GHA but "
          ++ a.uploader.login ++ ". Aborting.", ?_⟩
        simp [get_release_assets, hc]
      · intro l hl
        simp [get_release_assets, hc] at hl
    | false =>
      have h1 : (a.uploader.utype == "Bot") = true := by
        have := (Bool.or_eq_false_iff.mp hc).1
        simpa [bne] using this
      have h2 : (a.uploader.login == "github-actions[bot]") = true := by
        have := (Bool.or_eq_false_iff.mp hc).2
        simpa [bne] using this
      have hta : trustedUploader a.uploader = true := by
        simp [trustedUploader, h1, h2]
      refine ⟨?_, ?_⟩
      · rintro ⟨x, hx, hxf⟩
        rcases List.mem_cons.mp hx with rfl | hxt
        · rw [hta] at hxf; cases hxf
        · rcases ih.1 ⟨x, hxt, hxf⟩ with ⟨msg, hmsg⟩
          exact ⟨msg, by simp [get_release_assets, hc, hmsg, Except.map]⟩
      · intro l hl
        simp only [get_release_assets, hc, if_false, Bool.false_eq_true] at hl
        cases hrt : get_release_assets t with
        | error e => rw [hrt] at hl; cases hl
        | ok lt =>
          rw [hrt] at hl
          simp [Except.map] at hl
          rcases ih.2 lt hrt with ⟨hlt, htrust⟩
          subst hlt
          cases hl
          refine ⟨rfl, ?_⟩
          intro x hx
          rcases List.mem_cons.mp hx with rfl | hxt
          · exact hta
          · exact htrust x hxt

/-- Witness for C4: a single-asset release with an untrusted uploader makes
the listing abort. -/
theorem get_release_assets_trust_witness :
    ∃ msg, get_release_assets [badAsset] = .error msg :=
  (get_release_assets_trust [badAsset]).1 ⟨badAsset, by decide, by decide⟩

/-! ## Claim C8 -/

/-- Claim C8: a call to the upload operation while the current
authenticated identity is not the bot "github-actions[bot]" of type "Bot"
logs the warning and returns without uploading or deleting anything — the
store comes back unchanged. -/
theorem upload_asset_untrusted_noop (user : Uploader) (store : ReleaseStore)
    (type_ pathName : String) (replace : Bool)
    (h : user.login ≠ "github-actions[bot]" ∨ user.utype ≠ "Bot") :
    upload_asset user store type_ pathName replace = .ok (store, true) := by
  have hc : (user.login != "github-actions[bot]" || user.utype != "Bot") = true := by
    rcases h with h | h <;> simp [bne_iff_ne, h]
  simp [upload_asset, hc]

/-- Witness for C8: the upload called with a human identity is a no-op. -/
theorem upload_asset_untrusted_noop_witness :
    upload_asset humanUploader ([] : ReleaseStore) "msys" "p-1-1-any.pkg.tar.zst" true =
      .ok (([] : ReleaseStore), true) :=
  upload_asset_untrusted_noop humanUploader [] "msys" "p-1-1-any.pkg.tar.zst" true
    (Or.inl (by decide))

/-! ## Claim C5 -/

/-- Claim C5: whatever happens inside the staging context — matching
failure, download or repo-add failure, a failing sync, or any outcome of
the build action run as the body — after the context exits the pacman
configuration file is byte-identical to its pre-staging contents and the
staging root directory no longer exists. -/
theorem staging_roundtrip (o : StagingOracle) (store : ReleaseStore)
    (repoRootPath : String) (deps : List (String × Pkg)) (init : SysState) :
    (staging_dependencies o store repoRootPath deps init).1.pacmanConf = init.pacmanConf ∧
    (staging_dependencies o store repoRootPath deps init).1.repoRootExists = false :=
  ⟨rfl, rfl⟩

/-! ## Claim C9 -/

/-- Every asset listed for a release is an asset of the store under that
release name. -/
theorem mem_of_mem_releaseAssets {store : ReleaseStore} {rel : String} {a : Asset}
    (h : a ∈ releaseAssets store rel) : (rel, a) ∈ store := by
  rcases List.mem_map.mp h with ⟨e, he, rfl⟩
  rcases List.mem_filter.mp he with ⟨hes, heq⟩
  have : e.1 = rel := by simpa using heq
  have he2 : e = (rel, e.2) := by
    cases e
    simp_all
  rw [← he2]
  exact hes

/-- If all store assets are trusted and some dependency has no matching
asset in its staging channel, the matching loop raises
`MissingDependencyError`. -/
theorem matchDeps_missing (store : ReleaseStore) (deps : List (String × Pkg))
    (htrust : ∀ rel a, (rel, a) ∈ store → trustedUploader a.uploader = true)
    (hmiss : ∃ pr ∈ deps, findDepAsset store pr.1 pr.2 = none) :
    ∃ pat, matchDeps store deps = .error (.missingDependency pat) := by
  induction deps with
  | nil => rcases hmiss with ⟨pr, hpr, _⟩; cases hpr
  | cons hd tl ih =>
    obtain ⟨n, d⟩ := hd
    have hok : get_release_assets (releaseAssets store ("staging-" ++ repoTypeOf d)) =
        .ok (releaseAssets store ("staging-" ++ repoTypeOf d)) :=
      get_release_assets_ok_of_trusted _
        (fun a ha => htrust _ a (mem_of_mem_releaseAssets ha))
    cases hfa : (releaseAssets store ("staging-" ++ repoTypeOf d)).find?
        (fun a => fnmatch a.name (depPattern n d)) with
    | none =>
      exact ⟨depPattern n d, by simp [matchDeps, hok, hfa]⟩
    | some a =>
      have hfd : findDepAsset store n d = some a.name := by
        simp [findDepAsset, hfa]
      rcases hmiss with ⟨pr, hpr, hprn⟩
      rcases List.mem_cons.mp hpr with rfl | htl
      · rw [hfd] at hprn; cases hprn
      · rcases ih ⟨pr, htl, hprn⟩ with ⟨pat, hpat⟩
        exact ⟨pat, by simp [matchDeps, hok, hfa, hpat, Except.map]⟩

/-- Claim C9: the stager matches every resolved dependency against the
(trusted) store listing before downloading anything, so when some
dependency has no matching asset, the context exits with
`MissingDependencyError` and its event history is empty: nothing was
downloaded, no repository directory was populated, and no configuration
stanza was written. -/
theorem staging_missing_dep_before_effects (o : StagingOracle) (store : ReleaseStore)
    (repoRootPath : String) (deps : List (String × Pkg)) (init : SysState)
    (htrust : ∀ rel a, (rel, a) ∈ store → trustedUploader a.uploader = true)
    (hmiss : ∃ pr ∈ deps, findDepAsset store pr.1 pr.2 = none)
    (hsuuy : o.suuyOk = true) :
    (staging_dependencies o store repoRootPath deps init).2.1 = [] ∧
    ∃ pat, (staging_dependencies o store repoRootPath deps init).2.2 =
      .error (.missingDependency pat) := by
  rcases matchDeps_missing store deps htrust hmiss with ⟨pat, hmd⟩
  refine ⟨?_, pat, ?_⟩
  · simp [staging_dependencies, staging_inner, hmd]
  · simp [staging_dependencies, staging_inner, hmd, hsuuy]

/-- A staging oracle in which every external step succeeds. -/
def stagingOracleW : StagingOracle :=
  { downloadOk := fun _ => true, repoAddOk := fun _ => true,
    suyOk := true, suuyOk := true, body := .ok () }

/-- An initial system state for the staging witness. -/
def sysInit : SysState := { pacmanConf := "#RemoteFileSigLevel = Required\n", repoRootExists := false }

/-- Witness for C9: dependency "b" of the chain has no asset in an empty
store; staging exits with `MissingDependencyError` and an empty event
history. -/
theorem staging_missing_dep_before_effects_witness :
    (staging_dependencies stagingOracleW [] "/build/_REPO" [("b", pkgBb)] sysInit).2.1 = [] ∧
    ∃ pat, (staging_dependencies stagingOracleW [] "/build/_REPO" [("b", pkgBb)] sysInit).2.2 =
      .error (.missingDependency pat) :=
  staging_missing_dep_before_effects stagingOracleW [] "/build/_REPO" [("b", pkgBb)] sysInit
    (fun _ a h => by cases h) ⟨("b", pkgBb), by decide, by decide⟩ rfl

/-! ## Claim C6 -/

/-- Claim C6: when the time budget expires during either build phase of a
package (the build tool raises its timeout), `build_package` raises
`BuildTimeoutError`, makes no upload call for that package (no artifact, no
failure marker), and the run stops: the remaining queue entries after that
package are not processed. -/
theorem build_timeout_stops_run (user : Uploader) (store : ReleaseStore)
    (o : Pkg → BuildOracle) (pkg : Pkg) (rest : List Pkg)
    (hst : (o pkg).stagingResult = none)
    (hp : (o pkg).p1 = .timeout ∨ ((o pkg).p1 = .ok ∧ (o pkg).p2 = .timeout)) :
    build_package user store (o pkg).stagingResult (o pkg).p1 (o pkg).p2
      (o pkg).outputs pkg = ([], some .buildTimeout) ∧
    run_build user store o (pkg :: rest) = ([(pkg, [])], .timedOut) := by
  have hb : build_package user store (o pkg).stagingResult (o pkg).p1 (o pkg).p2
      (o pkg).outputs pkg = ([], some .buildTimeout) := by
    rcases hp with h1 | ⟨h1, h2⟩
    · simp [build_package, hst, h1]
    · simp [build_package, hst, h1, h2]
  exact ⟨hb, by simp [run_build, hb]⟩

/-- A build oracle whose first phase times out. -/
def oracleTimeout : Pkg → BuildOracle :=
  fun _ => { stagingResult := none, p1 := .timeout, p2 := .ok, outputs := [] }

/-- Witness for C6: package A times out in its first phase; no upload call
is made for it and package B is never processed. -/
theorem build_timeout_stops_run_witness :
    build_package botUploader [] (oracleTimeout pkgAa).stagingResult (oracleTimeout pkgAa).p1
      (oracleTimeout pkgAa).p2 (oracleTimeout pkgAa).outputs pkgAa =
      ([], some .buildTimeout) ∧
    run_build botUploader [] oracleTimeout (pkgAa :: [pkgBb]) = ([(pkgAa, [])], .timedOut) :=
  build_timeout_stops_run botUploader [] oracleTimeout pkgAa [pkgBb] rfl (Or.inl rfl)

/-! ## Claim C7 -/

/-- A build oracle whose first phase exits non-zero. -/
def oracleCPE : Pkg → BuildOracle :=
  fun _ => { stagingResult := none, p1 := .calledProcessError, p2 := .ok, outputs := [] }

/-- Claim C7 evaluated at its failing input: package A (produces "a",
version "1") fails its first build phase under the trusted CI identity.
The handler attempts to upload the marker "a-1.failed", but `upload_asset`
raises an attribute error (line 107 binds the list returned by
`get_release_assets` to `release` and then calls a method on that list), so
the marker is never published and `build_package` leaves with an exception
`run_build` does not catch: the run crashes instead of continuing to B. -/
theorem build_failure_marker_crash :
    build_package botUploader [] none .calledProcessError .ok [] pkgAa =
      ([("failed", "a-1.failed")], some (.pyError uploadAttrError)) ∧
    run_build botUploader [] oracleCPE [pkgAa, pkgBb] =
      ([(pkgAa, [("failed", "a-1.failed")])], .crashed uploadAttrError) := by decide
